import Mathlib

/-!
Shallow embedding of `dcc` (`src/main.go`): a reconciler that compares the
containers running on the local Docker daemon against the containers the
Kubernetes API reports for the same node, and reports or stops the orphans.

Effectful Go functions are embedded as pure functions that return the list of
their observable effects (log lines, notification-channel sends, runtime stop
invocations) alongside their Go return value. Calls to the external Docker and
Kubernetes clients are embedded as inputs: the item list and optional error the
client call produced.
-/

namespace Dcc

/-- `Timing` from `main.go`: `check_interval` and `stop_timeout`, both in
seconds (Go `uint32`, modelled as `Nat`). -/
structure Timing where
  CheckInterval : Nat
  StopTimeout : Nat
  deriving Repr, DecidableEq

/-- `Whitelist` from `main.go`: the `images` substring list. -/
structure Whitelist where
  Images : List String
  deriving Repr, DecidableEq

/-- `Config` from `main.go`. -/
structure Config where
  Timing : Timing
  Whitelist : Whitelist
  deriving Repr, DecidableEq

/-- The in-process default `config = Config{Timing: Timing{CheckInterval: 90,
StopTimeout: 30}}` from `main.go`. -/
def defaultConfig : Config :=
  { Timing := { CheckInterval := 90, StopTimeout := 30 }, Whitelist := { Images := [] } }

/-- `types.Container`, restricted to the fields `main.go` reads: `ID`,
`Image`, `ImageID`, `Created` (Unix seconds). -/
structure Container where
  ID : String
  Image : String
  ImageID : String
  Created : Int
  deriving Repr, DecidableEq

/-- One observable effect of a pass: a log line (`log.Println`), a
notification-channel send (consumed by `sendEvent`), or a Docker
`ContainerStop` invocation with its timeout argument. -/
inductive Effect where
  | logOrphanFound (c : Container) (age : Int)
  | logNoOrphans
  | logError (msg : String)
  | logStopping (c : Container)
  | logObserving (c : Container)
  | containerStop (id : String) (timeoutSeconds : Nat)
  | notify (msg : String)
  deriving Repr, DecidableEq

/-- Whether an effect is a runtime `ContainerStop` invocation. -/
def Effect.isStop : Effect → Bool
  | .containerStop _ _ => true
  | _ => false

/-- Whether an effect is a notification-channel send. -/
def Effect.isNotify : Effect → Bool
  | .notify _ => true
  | _ => false

/-- Go `strings.Contains haystack needle` on rune lists: `needle` occurs as a
contiguous substring of `haystack` (scanning every position left to right). -/
def listContainsSub (haystack needle : List Char) : Bool :=
  match haystack with
  | [] => needle.isEmpty
  | h :: t => needle.isPrefixOf (h :: t) || listContainsSub t needle

/-- Go `strings.Contains s sub`. -/
def strContains (s sub : String) : Bool :=
  listContainsSub s.data sub.data

/-- `stringInSlice` from `main.go`: true when some element `b` of `list`
satisfies `strings.Contains(b, a)`, i.e. when `a` occurs as a substring of
some element of `list`. -/
def stringInSlice (a : String) (list : List String) : Bool :=
  list.any fun b => strContains b a

/-- `compareContainerGroups` from `main.go`: walks `dockerGroup` in order;
each container whose ID fails the `stringInSlice` test against
`kubernetesGroup` is logged as an orphan found (with age `now - Created`,
from `time.Since(time.Unix(container.Created, 0))`) and appended to the
returned orphan list. Result: (log effects, orphan list). -/
def compareContainerGroups (now : Int) :
    List Container → List String → List Effect × List Container
  | [], _ => ([], [])
  | c :: rest, ks =>
    let r := compareContainerGroups now rest ks
    if !stringInSlice c.ID ks then
      (Effect.logOrphanFound c (now - c.Created) :: r.1, c :: r.2)
    else r

/-- `getDockerContainers` from `main.go`, as a function of what the Docker
client call produced (`containers`, `listErr`): logs the error if the list
call failed, then keeps exactly the containers whose image matches no
whitelist substring (`remove` stays `false`). A failed call yields a nil
container slice, embedded as `containers = []`. -/
def getDockerContainers (whitelistImages : List String) (containers : List Container)
    (listErr : Option String) : List Effect × List Container :=
  ((match listErr with
    | some e => [Effect.logError ("No running containers found in Docker. " ++ e)]
    | none => []),
   containers.filter fun c => !(whitelistImages.any fun image => strContains c.Image image))

/-- One entry of `pod.Status.ContainerStatuses`: the field `main.go` reads. -/
structure ContainerStatus where
  ContainerID : String
  deriving Repr, DecidableEq

/-- One pod, restricted to the fields `main.go` reads: `Spec.NodeName` and
`Status.ContainerStatuses`. -/
structure Pod where
  NodeName : String
  ContainerStatuses : List ContainerStatus
  deriving Repr, DecidableEq

/-- Go `strings.TrimPrefix(s, p)`: drop a leading occurrence of `p` from `s`
when present, otherwise return `s` unchanged. -/
def trimLeading (p s : String) : String :=
  if p.isPrefixOf s then s.drop p.length else s

/-- `getPodContainers` from `main.go`, as a function of what the pods-list
call produced (`podItems`, `listErr`): logs the error if the call failed,
then collects, for every pod scheduled on `nodeFlag`, every container status
identifier with the `docker://` scheme stripped. A failed call yields an
empty item list, embedded as `podItems = []`. -/
def getPodContainers (nodeFlag : String) (podItems : List Pod)
    (listErr : Option String) : List Effect × List String :=
  ((match listErr with
    | some e => [Effect.logError ("Error in listing pods: " ++ e)]
    | none => []),
   (podItems.filter fun p => p.NodeName == nodeFlag).flatMap fun p =>
     p.ContainerStatuses.map fun s => trimLeading "docker://" s.ContainerID)

/-- `removeOrReportOrphanContainers` from `main.go`. `stopResult` is the
Docker daemon's response to a stop request; the source discards it
(`cli.ContainerStop(...)` with no error check), which the `let _ :=` makes
explicit. In `remove` mode each orphan is logged, stopped with the configured
timeout, and reported as stopped; in every other mode each orphan is logged
and reported as found. -/
def removeOrReportOrphanContainers (modeFlag : String) (stopTimeoutSeconds : Nat)
    (stopResult : String → Except String Unit) (orphans : List Container) : List Effect :=
  orphans.flatMap fun c =>
    if modeFlag == "remove" then
      let _ := stopResult c.ID
      [Effect.logStopping c, Effect.containerStop c.ID stopTimeoutSeconds,
       Effect.notify ("Dangling container stopped: " ++ c.ID ++ " (" ++ c.ImageID ++ ")")]
    else
      [Effect.logObserving c,
       Effect.notify ("Dangling container found: " ++ c.ID ++ " (" ++ c.ImageID ++ ")")]

/-- The world one pass observes: the wall clock and what the two client list
calls produced. -/
structure PassInput where
  now : Int
  dockerContainers : List Container
  dockerErr : Option String
  pods : List Pod
  podErr : Option String
  deriving Repr

/-- `executeCheck` from `main.go`: fetch both inventories, compare, then
either dispatch every orphan or log that none were found. Result:
(effects in program order, orphan list). -/
def executeCheck (cfg : Config) (modeFlag nodeFlag : String)
    (stopResult : String → Except String Unit) (inp : PassInput) :
    List Effect × List Container :=
  let dockerRes := getDockerContainers cfg.Whitelist.Images inp.dockerContainers inp.dockerErr
  let podRes := getPodContainers nodeFlag inp.pods inp.podErr
  let cmp := compareContainerGroups inp.now dockerRes.2 podRes.2
  if cmp.2.length > 0 then
    (dockerRes.1 ++ podRes.1 ++ cmp.1 ++
      removeOrReportOrphanContainers modeFlag cfg.Timing.StopTimeout stopResult cmp.2,
     cmp.2)
  else
    (dockerRes.1 ++ podRes.1 ++ cmp.1 ++ [Effect.logNoOrphans], cmp.2)

/-- `main` from `main.go`, truncated to its first `n` iterations: the loop
`for { executeCheck(); sleep check_interval }` runs the next pass
unconditionally after every pass. `inputs i` is the world pass `i` observes. -/
def mainSteps (cfg : Config) (modeFlag nodeFlag : String)
    (stopResult : String → Except String Unit) (inputs : Nat → PassInput) :
    Nat → List (List Effect × List Container)
  | 0 => []
  | n + 1 =>
    mainSteps cfg modeFlag nodeFlag stopResult inputs n
      ++ [executeCheck cfg modeFlag nodeFlag stopResult (inputs n)]

/-- A concrete stop-response oracle for instantiating theorems: every stop
request succeeds. -/
def stopOk : String → Except String Unit := fun _ => Except.ok ()

/-! ## Helper lemmas -/

/-- The orphan list returned by `compareContainerGroups` is the filter of the
Docker group by failure of the `stringInSlice` test. -/
theorem compare_snd_eq_filter (now : Int) (R : List Container) (K : List String) :
    (compareContainerGroups now R K).2 = R.filter fun c => !stringInSlice c.ID K := by
  induction R with
  | nil => rfl
  | cons c rest ih =>
    by_cases h : stringInSlice c.ID K
    · simp [compareContainerGroups, List.filter_cons, h, ih]
    · simp [compareContainerGroups, List.filter_cons, h, ih]

/-- The empty needle is contained in every rune list. -/
theorem listContainsSub_nil (l : List Char) : listContainsSub l [] = true := by
  cases l with
  | nil => rfl
  | cons h t => rfl

/-- Go `strings.Contains s ""` is true for every `s`. -/
theorem strContains_empty_needle (s : String) : strContains s "" = true :=
  listContainsSub_nil s.data

/-- `mainSteps` runs exactly one pass per loop iteration. -/
theorem mainSteps_length (cfg : Config) (modeFlag nodeFlag : String)
    (stopResult : String → Except String Unit) (inputs : Nat → PassInput) :
    ∀ n, (mainSteps cfg modeFlag nodeFlag stopResult inputs n).length = n := by
  intro n
  induction n with
  | zero => rfl
  | succ n ih => simp [mainSteps, ih]

/-! ## Claim theorems -/

/-- C1 (counterexample): the claim's membership criterion fails on the code.
The orchestrator identifier "abc" is contained as a substring of the
container's identifier "abc123", so by the claim the container is matched and
the orphan set should be empty; but `stringInSlice` tests containment in the
opposite direction (`strings.Contains b a`: the container ID inside the
orchestrator ID), so `compareContainerGroups` reports the container as an
orphan. -/
theorem substring_direction_counterexample :
    strContains "abc123" "abc" = true
    ∧ (compareContainerGroups 0 [Container.mk "abc123" "nginx" "sha256:1" 0] ["abc"]).2
        = [Container.mk "abc123" "nginx" "sha256:1" 0] := by
  constructor
  · decide
  · decide

/-- C1 (amended): a container record `c` is in the orphan set
`compareContainerGroups now R K` if and only if `c` is in `R` and no
identifier `k` in `K` contains `c`'s identifier as a substring (containment
direction reversed with respect to the claim); in particular, if every
element of `R` has its identifier contained as a substring of some identifier
in `K`, the orphan set is empty. -/
theorem compare_mem_iff_reversed_containment (now : Int) (R : List Container)
    (K : List String) :
    (∀ c : Container, c ∈ (compareContainerGroups now R K).2 ↔
      c ∈ R ∧ ∀ k ∈ K, strContains k c.ID = false)
    ∧ ((∀ c ∈ R, ∃ k ∈ K, strContains k c.ID = true) →
        (compareContainerGroups now R K).2 = []) := by
  constructor
  · intro c
    rw [compare_snd_eq_filter, List.mem_filter]
    simp [stringInSlice, List.any_eq_true]
  · intro h
    rw [compare_snd_eq_filter, List.filter_eq_nil_iff]
    intro c hc
    obtain ⟨k, hk, hks⟩ := h c hc
    simp [stringInSlice, List.any_eq_true]
    exact ⟨k, hk, hks⟩

/-- C1 (witness): on a runtime inventory whose single identifier is contained
in an orchestrator identifier, the orphan set is empty. -/
theorem compare_mem_iff_reversed_containment_witness :
    (compareContainerGroups 0 [Container.mk "abc123" "nginx" "sha256:1" 0]
        ["xabc123x"]).2 = [] :=
  (compare_mem_iff_reversed_containment 0
    [Container.mk "abc123" "nginx" "sha256:1" 0] ["xabc123x"]).2 (by decide)

/-- C7: the orphan set is a subset of the runtime inventory handed to the
comparison: every element of the result is an element of the input. -/
theorem compare_subset (now : Int) (R : List Container) (K : List String)
    (c : Container) (h : c ∈ (compareContainerGroups now R K).2) : c ∈ R := by
  rw [compare_snd_eq_filter] at h
  exact (List.mem_filter.mp h).1

/-- C7 (witness): a concrete orphan produced by the comparison is an element
of the input inventory. -/
theorem compare_subset_witness :
    Container.mk "abc123" "nginx" "sha256:1" 7
      ∈ [Container.mk "abc123" "nginx" "sha256:1" 7] :=
  compare_subset 0 [Container.mk "abc123" "nginx" "sha256:1" 7] []
    (Container.mk "abc123" "nginx" "sha256:1" 7) (by decide)

/-- C8: the comparison is deterministic and idempotent — two runs on the same
unchanged pair of inventories yield the same orphan set, even at different
wall-clock instants (the clock only feeds the age shown in the log line). -/
theorem compare_deterministic (now now' : Int) (R : List Container)
    (K : List String) :
    (compareContainerGroups now R K).2 = (compareContainerGroups now' R K).2 := by
  rw [compare_snd_eq_filter, compare_snd_eq_filter]

/-- C3: in watch mode the dispatcher performs no runtime stop invocation for
any orphan set; its whole effect trace is one observation log line and one
"Dangling container found: `<id>` (`<image-id>`)" notification per orphan. -/
theorem watch_mode_never_stops (t : Nat) (stopResult : String → Except String Unit)
    (orphans : List Container) :
    removeOrReportOrphanContainers "watch" t stopResult orphans
      = orphans.flatMap (fun c =>
          [Effect.logObserving c,
           Effect.notify ("Dangling container found: " ++ c.ID ++ " (" ++ c.ImageID ++ ")")])
    ∧ (removeOrReportOrphanContainers "watch" t stopResult orphans).all
        (fun e => !e.isStop) = true := by
  have hb : ("watch" == "remove") = false := rfl
  constructor
  · simp [removeOrReportOrphanContainers, hb]
  · induction orphans with
    | nil => rfl
    | cons c rest ih =>
      simp only [removeOrReportOrphanContainers, hb] at ih ⊢
      simp [List.all_append, ih, Effect.isStop]

/-- C4: in remove mode the dispatcher performs exactly one runtime stop
invocation per orphan, in inventory order, and every invocation carries the
configured stop grace period `cfg.Timing.StopTimeout` as its timeout bound
(`executeCheck` passes exactly `cfg.Timing.StopTimeout` to the dispatcher). -/
theorem remove_mode_one_stop_per_orphan (cfg : Config)
    (stopResult : String → Except String Unit) (orphans : List Container) :
    (removeOrReportOrphanContainers "remove" cfg.Timing.StopTimeout stopResult
        orphans).filter Effect.isStop
      = orphans.map fun c => Effect.containerStop c.ID cfg.Timing.StopTimeout := by
  induction orphans with
  | nil => rfl
  | cons c rest ih =>
    simp only [removeOrReportOrphanContainers] at ih ⊢
    simp [List.filter_append, Effect.isStop] at ih
    simp [List.filter_append, Effect.isStop, ih]

/-- C5: in remove mode the dispatcher's effect trace does not depend on the
runtime's responses to the stop requests (the source discards them), and its
notification trace is exactly one "Dangling container stopped: `<id>`
(`<image-id>`)" message per orphan — the same message whether the stop
succeeded or failed, with no distinct failure message. -/
theorem remove_mode_report_ignores_stop_result (t : Nat)
    (r r' : String → Except String Unit) (orphans : List Container) :
    removeOrReportOrphanContainers "remove" t r orphans
        = removeOrReportOrphanContainers "remove" t r' orphans
    ∧ (removeOrReportOrphanContainers "remove" t r orphans).filter Effect.isNotify
        = orphans.map (fun c =>
            Effect.notify ("Dangling container stopped: " ++ c.ID ++ " (" ++ c.ImageID ++ ")")) := by
  constructor
  · rfl
  · induction orphans with
    | nil => rfl
    | cons c rest ih =>
      simp only [removeOrReportOrphanContainers] at ih ⊢
      simp [List.filter_append, Effect.isNotify] at ih
      simp [List.filter_append, Effect.isNotify, ih]

/-- C9: for every mode string other than "remove" — not only "watch" — the
dispatcher takes the watch branch: its effect trace equals the watch-mode
trace, one observation log line and one "Dangling container found" message
per orphan, with no stop invocation. -/
theorem non_remove_mode_reports_only (mode : String) (t : Nat)
    (stopResult : String → Except String Unit) (orphans : List Container)
    (h : mode ≠ "remove") :
    removeOrReportOrphanContainers mode t stopResult orphans
        = removeOrReportOrphanContainers "watch" t stopResult orphans
    ∧ removeOrReportOrphanContainers mode t stopResult orphans
        = orphans.flatMap (fun c =>
            [Effect.logObserving c,
             Effect.notify ("Dangling container found: " ++ c.ID ++ " (" ++ c.ImageID ++ ")")]) := by
  have hb : (mode == "remove") = false := by
    simp [h]
  have hw : ("watch" == "remove") = false := rfl
  constructor
  · simp [removeOrReportOrphanContainers, hb, hw]
  · simp [removeOrReportOrphanContainers, hb]

/-- C9 (witness): the unrecognized mode "observe" behaves as watch mode on a
concrete orphan. -/
theorem non_remove_mode_reports_only_witness :
    removeOrReportOrphanContainers "observe" 30 stopOk
        [Container.mk "abc123" "nginx" "sha256:1" 0]
      = removeOrReportOrphanContainers "watch" 30 stopOk
        [Container.mk "abc123" "nginx" "sha256:1" 0]
    ∧ removeOrReportOrphanContainers "observe" 30 stopOk
        [Container.mk "abc123" "nginx" "sha256:1" 0]
      = [Container.mk "abc123" "nginx" "sha256:1" 0].flatMap (fun c =>
          [Effect.logObserving c,
           Effect.notify ("Dangling container found: " ++ c.ID ++ " (" ++ c.ImageID ++ ")")]) :=
  non_remove_mode_reports_only "observe" 30 stopOk
    [Container.mk "abc123" "nginx" "sha256:1" 0] (by decide)

/-- C2: when the pods-list call fails (it yields an error and no items), the
orchestrator fetcher logs the error and returns an empty identifier list; a
pass in which both client calls fail completes, producing one log entry per
failure, the "no orphans" log line, no stop invocation and an empty orphan
set; and the main loop runs the next pass unconditionally after every pass. -/
theorem pods_failure_degrades (cfg : Config) (mode nodeFlag : String)
    (stopResult : String → Except String Unit) (inputs : Nat → PassInput)
    (now : Int) (e1 e2 : String) (n : Nat) :
    getPodContainers nodeFlag [] (some e2)
        = ([Effect.logError ("Error in listing pods: " ++ e2)], [])
    ∧ executeCheck cfg mode nodeFlag stopResult ⟨now, [], some e1, [], some e2⟩
        = ([Effect.logError ("No running containers found in Docker. " ++ e1),
            Effect.logError ("Error in listing pods: " ++ e2),
            Effect.logNoOrphans], [])
    ∧ (mainSteps cfg mode nodeFlag stopResult inputs (n + 1)).length = n + 1 := by
  refine ⟨rfl, rfl, ?_⟩
  exact mainSteps_length cfg mode nodeFlag stopResult inputs (n + 1)

/-- C6: a container whose image reference contains a whitelist substring is
removed by the runtime fetcher before comparison and therefore never appears
in the orphan set, for every orchestrator identifier list (including the
empty one). -/
theorem whitelisted_never_orphan (now : Int) (wl : List String)
    (containers : List Container) (listErr : Option String) (K : List String)
    (c : Container) (w : String) (hw : w ∈ wl)
    (hc : strContains c.Image w = true) :
    c ∉ (compareContainerGroups now
        (getDockerContainers wl containers listErr).2 K).2 := by
  intro hmem
  rw [compare_snd_eq_filter] at hmem
  have h1 : c ∈ (getDockerContainers wl containers listErr).2 :=
    (List.mem_filter.mp hmem).1
  simp only [getDockerContainers, List.mem_filter] at h1
  have h2 := h1.2
  simp only [Bool.not_eq_true', List.any_eq_false] at h2
  exact absurd hc (by simpa using h2 w hw)

/-- C6 (witness): the whitelisted pause container of spec Scenario B is not an
orphan even though the orchestrator identifier list is empty. -/
theorem whitelisted_never_orphan_witness :
    Container.mk "abc123" "gcr.io/google_containers/pause-amd64" "sha256:2" 0
      ∉ (compareContainerGroups 0
          (getDockerContainers ["pause-amd64"]
            [Container.mk "abc123" "gcr.io/google_containers/pause-amd64" "sha256:2" 0]
            none).2 []).2 :=
  whitelisted_never_orphan 0 ["pause-amd64"]
    [Container.mk "abc123" "gcr.io/google_containers/pause-amd64" "sha256:2" 0]
    none []
    (Container.mk "abc123" "gcr.io/google_containers/pause-amd64" "sha256:2" 0)
    "pause-amd64" (by decide) (by decide)

/-- C10: against a non-empty orchestrator identifier list, a container whose
identifier is the empty string always passes the membership test
(`strings.Contains b ""` is true for every `b`), so it is never reported as
an orphan. -/
theorem empty_id_never_orphan (now : Int) (R : List Container)
    (K : List String) (c : Container) (hK : K ≠ []) (hc : c.ID = "") :
    stringInSlice c.ID K = true ∧ c ∉ (compareContainerGroups now R K).2 := by
  have hs : stringInSlice c.ID K = true := by
    cases K with
    | nil => exact absurd rfl hK
    | cons k ks => simp [stringInSlice, hc, strContains_empty_needle]
  refine ⟨hs, ?_⟩
  intro hmem
  rw [compare_snd_eq_filter] at hmem
  have h2 := (List.mem_filter.mp hmem).2
  rw [hs] at h2
  simp at h2

/-- C10 (witness): a concrete empty-identifier container is matched by a
concrete non-empty identifier list and is absent from the orphan set. -/
theorem empty_id_never_orphan_witness :
    stringInSlice (Container.mk "" "img" "iid" 0).ID ["k1"] = true
    ∧ Container.mk "" "img" "iid" 0
        ∉ (compareContainerGroups 0 [Container.mk "" "img" "iid" 0] ["k1"]).2 :=
  empty_id_never_orphan 0 [Container.mk "" "img" "iid" 0] ["k1"]
    (Container.mk "" "img" "iid" 0) (by decide) rfl

end Dcc
